import Mathlib

/-
  Verification of the ColosSeUMO coupling framework (colossumo repository)
  against its natural-language specification.

  The development shallowly embeds in Lean 4 the parts of the Python source
  that the specification's claims are about:

  * colosseumo.py  — the node lease registry
                     (assign_free_colosseum_node / release_colosseum_node /
                      get_colosseum_node);
  * application.py — the RPC bridge (call_plexe_api, __plexe_api_return);
  * messages.py    — the envelope codec (Message.from_json, check_for_keys,
                     the concrete message kinds);
  * cacc_application.py — the link monitor / controller state machine
                     (update_packets_stats, loss_detected, loss_monitor);
  * api_interpreter.py — the API interpreter (serve_api_call).

  Modelling conventions, stated once here:

  * Python dicts are embedded as association lists with first-match lookup
    (dlookup) and in-place update (dset), matching dict insertion-order
    semantics; Python sets of ints are duplicate-free lists with sadd
    mirroring set.add.
  * Python exceptions are embedded with Except: an Except.error value is an
    exception propagating to the caller, an Except.ok value is a normal
    return.
  * JSON values are embedded by the inductive JVal of atoms; JSON text
    parsing (json.loads / json.dumps) is embedded abstractly: a payload is
    either Payload.malformed (loads raises) or Payload.wellFormed p with p
    the parsed value, and dumps followed by loads is the structural
    identity (encodePayload).  Objects of nesting depth at most two with
    atomic leaves cover every payload this code base produces.  Numeric
    JSON leaves are embedded as integers: none of the verified code paths
    computes with them, it only moves them around.
  * Wall-clock times (time.time_ns() / 1e9) are embedded as rationals; the
    verified comparisons against the 0.5 s silence threshold do not depend
    on floating-point rounding.
-/

/-! ## Python value model -/

/-- Python exceptions observed by the embedded code paths. -/
inductive PyExc where
  | jsonDecodeError
  | attributeError (attr : String)
  | keyError (key : String)
  | valueError
  | typeError
  deriving DecidableEq, Repr

/-- Atomic JSON values (leaves). -/
inductive JVal where
  | jnull
  | jbool (b : Bool)
  | jint (n : Int)
  | jstr (s : String)
  deriving DecidableEq, Repr

/-- A Python dict with string keys and atomic JSON values: the `content`
field of every message in messages.py. -/
abbrev Content := List (String × JVal)

/-- First-match association-list lookup; embeds Python dict item access
and the `k in d.keys()` test. -/
def dlookup {κ α : Type} [DecidableEq κ] : List (κ × α) → κ → Option α
  | [], _ => none
  | (k, v) :: rest, key => if key = k then some v else dlookup rest key

/-- Python dict assignment d[k] = v: replaces the value in place when the
key is present, appends otherwise (dict insertion order). -/
def dset {κ α : Type} [DecidableEq κ] : List (κ × α) → κ → α → List (κ × α)
  | [], key, v => [(key, v)]
  | (k, w) :: rest, key, v =>
      if k = key then (key, v) :: rest else (k, w) :: dset rest key v

/-- Python set.add on a duplicate-free list of ints. -/
def sadd (s : List Int) (n : Int) : List Int :=
  if n ∈ s then s else s ++ [n]

/-- Python dict item read d[k]: raises KeyError when the key is absent. -/
def dictGet (c : Content) (k : String) : Except PyExc JVal :=
  match dlookup c k with
  | some v => Except.ok v
  | none => Except.error (PyExc.keyError k)

/-- Decimal digit parser over a character list (structural, so concrete
inputs evaluate definitionally). -/
def parseNatDigits : List Char → Nat → Option Nat
  | [], acc => some acc
  | c :: cs, acc =>
      if c.isDigit then parseNatDigits cs (acc * 10 + (c.toNat - 48))
      else none

/-- Python int(s) on a string: an optional sign followed by decimal
digits (the embedding covers the plain decimal forms this system
exchanges; it does not reproduce the whitespace and underscore tolerance
of CPython's parser, which no code path here relies on). -/
def pyIntOfString (s : String) : Option Int :=
  match s.data with
  | [] => none
  | '-' :: [] => none
  | '-' :: c :: cs => (parseNatDigits (c :: cs) 0).map (fun n => -(n : Int))
  | '+' :: [] => none
  | '+' :: c :: cs => (parseNatDigits (c :: cs) 0).map (fun n => (n : Int))
  | cs => (parseNatDigits cs 0).map (fun n => (n : Int))

/-- Python int(x) applied to an atomic JSON value: ints pass through,
bools coerce, strings are parsed (ValueError on failure), None raises
TypeError. -/
def pyInt : JVal → Except PyExc Int
  | JVal.jint n => Except.ok n
  | JVal.jbool b => Except.ok (if b then 1 else 0)
  | JVal.jstr s =>
      match pyIntOfString s with
      | some n => Except.ok n
      | none => Except.error PyExc.valueError
  | JVal.jnull => Except.error PyExc.typeError

/-! ## Node lease registry (colosseumo.py) -/

/-- Modelled from the spec: the Bidict class (a bidirectional map used for
the vehicle-to-node lease registry) is imported from a module that is not
under src/.  Per the spec the registry maps entities to nodes
bidirectionally, an entity holds at most one node and a node is held by at
most one entity; accordingly item assignment removes any existing pair
with the same key or the same value before inserting the new pair.  The
claims settled against this model only exercise plain mapping reads and a
single insertion, which any bidirectional dictionary must implement this
way. -/
def bidictSet (m : List (String × Int)) (k : String) (v : Int) :
    List (String × Int) :=
  m.filter (fun kv => kv.1 ≠ k ∧ kv.2 ≠ v) ++ [(k, v)]

/-- The lease-registry part of the Colosseumo coordinator state:
available_nodes is the Python set of free colosseum node ids,
vehicle_to_node the Bidict from sumo vehicle id to colosseum node id. -/
structure ColState where
  available_nodes : List Int
  vehicle_to_node : List (String × Int)
  deriving DecidableEq, Repr

/-- Colosseumo.assign_free_colosseum_node.  Python set.pop removes an
arbitrary element; the embedding removes the head of the list.  No claim
settled here depends on which free node is chosen. -/
def assign_free_colosseum_node (st : ColState) (sumo_vehicle : String) :
    Int × ColState :=
  match st.available_nodes with
  | [] => (-1, st)
  | colosseum_node :: rest =>
      (colosseum_node,
        { available_nodes := rest,
          vehicle_to_node := bidictSet st.vehicle_to_node sumo_vehicle colosseum_node })

/-- Colosseumo.release_colosseum_node, transliterated: when the vehicle is
bound, the held node is added back to available_nodes, and the binding in
vehicle_to_node is left in place (the source performs no deletion). -/
def release_colosseum_node (st : ColState) (sumo_vehicle : String) :
    Int × ColState :=
  match dlookup st.vehicle_to_node sumo_vehicle with
  | none => (-1, st)
  | some colosseum_node =>
      (colosseum_node,
        { st with available_nodes := sadd st.available_nodes colosseum_node })

/-- Colosseumo.get_colosseum_node. -/
def get_colosseum_node (st : ColState) (sumo_vehicle_id : String) : Int :=
  match dlookup st.vehicle_to_node sumo_vehicle_id with
  | none => -1
  | some n => n

/-- The set of nodes bound in the lease map. -/
def boundNodes (st : ColState) : List Int :=
  st.vehicle_to_node.map Prod.snd

/-! ## RPC bridge (application.py) -/

/-- The statements of Application.call_plexe_api up to the blocking wait,
one constructor per statement, in source order: acquire the transaction
mutex, read the transaction counter, increment it, release the mutex,
build the APICallMessage, register the per-transaction semaphore in
api_semaphores, publish the call envelope, and block on the semaphore. -/
inductive CallAction where
  | acquireMutex
  | readTransactionId
  | incrementTransactionId
  | releaseMutex
  | buildCallMessage
  | registerSemaphore
  | publishCall
  | waitOnSemaphore
  deriving DecidableEq, Repr

/-- The source-order statement sequence of call_plexe_api. -/
def call_plexe_api_actions : List CallAction :=
  [CallAction.acquireMutex, CallAction.readTransactionId,
   CallAction.incrementTransactionId, CallAction.releaseMutex,
   CallAction.buildCallMessage, CallAction.registerSemaphore,
   CallAction.publishCall, CallAction.waitOnSemaphore]

/-- Annotates every action of a straight-line statement sequence with
whether mutex_transaction is held while it executes, threading the lock
state through acquire and release. -/
def annotateLock : List CallAction → Bool → List (CallAction × Bool)
  | [], _ => []
  | a :: rest, held =>
      let heldNow : Bool :=
        match a with
        | CallAction.acquireMutex => true
        | CallAction.releaseMutex => false
        | _ => held
      (a, heldNow) :: annotateLock rest heldNow

/-- Whether mutex_transaction is held while the given statement of
call_plexe_api executes. -/
def lockedDuring (a : CallAction) : Bool :=
  (dlookup (annotateLock call_plexe_api_actions false) a).getD false

/-- Position of a statement within call_plexe_api. -/
def actionIndex (a : CallAction) : Nat :=
  call_plexe_api_actions.findIdx (fun b => b = a)

/-- The RPC-bridge part of an Application instance's state: the entity's
sumo id, the semaphore table api_semaphores (transaction id to semaphore
counter), and the result table api_call_return_value. -/
structure AppState where
  sumo_id : String
  api_semaphores : List (Int × Nat)
  api_call_return_value : List (Int × JVal)
  deriving DecidableEq, Repr

/-- The fields of a decoded APIResponseMessage as consumed by
Application.__plexe_api_return. -/
structure APIResponseFields where
  sumo_id : String
  api_code : JVal
  transaction_id : Int
  response : JVal
  deriving DecidableEq, Repr

/-- Outcome of Application.__plexe_api_return: the message is ignored
(sumo_id of another vehicle), the process terminates via os._exit(1), or
the result is stored and the waiting caller signaled, yielding the new
state. -/
inductive ReturnOutcome where
  | ignored
  | fatalExit
  | delivered (st : AppState)
  deriving DecidableEq, Repr

/-- Semaphore.release() on the semaphore stored under the given
transaction id: the counter stored under that key is incremented. -/
def semRelease : List (Int × Nat) → Int → List (Int × Nat)
  | [], _ => []
  | (k, v) :: rest, tid =>
      if k = tid then (k, v + 1) :: rest else (k, v) :: semRelease rest tid

/-- Application.__plexe_api_return, transliterated: ignore responses for a
different sumo_id; os._exit(1) when the transaction id has no entry in
api_semaphores or when api_call_return_value already holds a result for
it; otherwise store the response and release the semaphore exactly
once. -/
def plexe_api_return (st : AppState) (msg : APIResponseFields) : ReturnOutcome :=
  if msg.sumo_id ≠ st.sumo_id then ReturnOutcome.ignored
  else if dlookup st.api_semaphores msg.transaction_id = none then
    ReturnOutcome.fatalExit
  else if (dlookup st.api_call_return_value msg.transaction_id).isSome then
    ReturnOutcome.fatalExit
  else
    ReturnOutcome.delivered
      { st with
        api_call_return_value :=
          dset st.api_call_return_value msg.transaction_id msg.response,
        api_semaphores := semRelease st.api_semaphores msg.transaction_id }

/-! ## Envelope codec (messages.py) -/

/-- A value inside the top-level JSON object of a payload: an atom, or an
object with atomic values (after json.loads with the SimpleNamespace
object_hook, objects are namespaces). -/
inductive PVal where
  | atom (v : JVal)
  | obj (fields : Content)
  deriving DecidableEq, Repr

/-- The result of json.loads on a parseable payload: an atom, or a
namespace whose attributes are atoms or flat objects.  Nesting depth two
with atomic leaves covers every envelope this code base exchanges. -/
inductive Parsed where
  | atom (v : JVal)
  | obj (fields : List (String × PVal))
  deriving DecidableEq, Repr

/-- The raw payload handed to Message.from_json: either text that
json.loads raises json.JSONDecodeError on, or text parsing to a value. -/
inductive Payload where
  | malformed
  | wellFormed (p : Parsed)
  deriving DecidableEq, Repr

/-- Python attribute access on the loads result (namespace attributes):
AttributeError on a non-namespace value or a missing attribute. -/
def getAttr : Parsed → String → Except PyExc PVal
  | Parsed.atom _, a => Except.error (PyExc.attributeError a)
  | Parsed.obj fields, a =>
      match dlookup fields a with
      | some v => Except.ok v
      | none => Except.error (PyExc.attributeError a)

/-- Python .__dict__ on the content attribute: the underlying dict of a
namespace, AttributeError on an atom. -/
def pvalDict : PVal → Except PyExc Content
  | PVal.obj fields => Except.ok fields
  | PVal.atom _ => Except.error (PyExc.attributeError "__dict__")

/-- The declared shape of one message kind: the type tag, the content
dict of a freshly constructed message (whose key view becomes self.keys),
and the from_object method copying values from self.content into typed
attributes. -/
structure MsgSpec (α : Type) where
  type : String
  initContent : Content
  fromObject : Content → Except PyExc α

/-- self.keys: the key view of the content dict built by the
constructor. -/
def specKeys {α : Type} (spec : MsgSpec α) : List String :=
  spec.initContent.map Prod.fst

/-- Message.check_for_keys: every declared key is present in content. -/
def check_for_keys (keys : List String) (content : Content) : Bool :=
  keys.all (fun k => (dlookup content k).isSome)

/-- Message.from_json, transliterated: loads the payload (raising on
unparseable text), returns False on a type mismatch, otherwise replaces
self.content with the parsed content dict, returns False when a declared
key is missing, and otherwise runs from_object and returns True.  The
result pairs the boolean outcome (some fields = returned True, none =
returned False) with the value of self.content after the call. -/
def msg_from_json {α : Type} (spec : MsgSpec α) (payload : Payload) :
    Except PyExc (Option α × Content) :=
  match payload with
  | Payload.malformed => Except.error PyExc.jsonDecodeError
  | Payload.wellFormed p => do
      let t ← getAttr p "type"
      if t = PVal.atom (JVal.jstr spec.type) then do
        let c ← getAttr p "content"
        let content ← pvalDict c
        if check_for_keys (specKeys spec) content then do
          let a ← spec.fromObject content
          pure (some a, content)
        else
          pure (none, content)
      else
        pure (none, spec.initContent)

/-- Message.to_object followed by json.dumps and, at the receiver,
json.loads: the envelope as a parsed structural value (dumps and loads
are embedded as a structural identity, see the header). -/
def encodePayload (type : String) (content : Content) : Payload :=
  Payload.wellFormed (Parsed.obj
    [("type", PVal.atom (JVal.jstr type)), ("content", PVal.obj content)])

/-- Constructor arguments of NewVehicleMessage, one per declared content
field. -/
structure NewVehicleFields where
  sumo_id : JVal
  colosseum_id : JVal
  application : JVal
  parameters : JVal
  deriving DecidableEq, Repr

/-- The attributes NewVehicleMessage.from_object assigns: the four
declared fields plus self.timestamp, which it reads from content although
no constructor and no declared key ever produces a timestamp entry. -/
structure NewVehicleDecoded where
  sumo_id : JVal
  colosseum_id : JVal
  application : JVal
  parameters : JVal
  timestamp : JVal
  deriving DecidableEq, Repr

/-- NewVehicleMessage.__init__ content dict. -/
def newVehicle_content (f : NewVehicleFields) : Content :=
  [("sumo_id", f.sumo_id), ("colosseum_id", f.colosseum_id),
   ("application", f.application), ("parameters", f.parameters)]

/-- NewVehicleMessage: type tag, default-constructed content and
from_object (which reads the undeclared timestamp key last). -/
def newVehicleSpec : MsgSpec NewVehicleDecoded :=
  { type := "new_vehicle",
    initContent :=
      newVehicle_content ⟨JVal.jnull, JVal.jnull, JVal.jnull, JVal.jnull⟩,
    fromObject := fun c => do
      let s ← dictGet c "sumo_id"
      let ci ← dictGet c "colosseum_id"
      let ap ← dictGet c "application"
      let pa ← dictGet c "parameters"
      let ts ← dictGet c "timestamp"
      pure ⟨s, ci, ap, pa, ts⟩ }

/-- DeleteVehicleMessage: inherits content shape and from_object from
NewVehicleMessage, overriding only the type tag. -/
def deleteVehicleSpec : MsgSpec NewVehicleDecoded :=
  { newVehicleSpec with type := "delete_vehicle" }

/-- The eight declared fields of VehicleDataMessage. -/
structure VehicleDataFields where
  sumo_id : JVal
  controller_acceleration : JVal
  acceleration : JVal
  speed : JVal
  time : JVal
  x : JVal
  y : JVal
  sender : JVal
  deriving DecidableEq, Repr

/-- VehicleDataMessage.__init__ content dict. -/
def vehicleData_content (f : VehicleDataFields) : Content :=
  [("sumo_id", f.sumo_id),
   ("controller_acceleration", f.controller_acceleration),
   ("acceleration", f.acceleration), ("speed", f.speed), ("time", f.time),
   ("x", f.x), ("y", f.y), ("sender", f.sender)]

/-- A freshly constructed VehicleDataMessage(): every default is None
except sender, which defaults to the empty string. -/
def vehicleDataDefault : VehicleDataFields :=
  ⟨JVal.jnull, JVal.jnull, JVal.jnull, JVal.jnull, JVal.jnull, JVal.jnull,
   JVal.jnull, JVal.jstr ""⟩

/-- VehicleDataMessage: type tag, default content, from_object restoring
all eight declared fields. -/
def vehicleDataSpec : MsgSpec VehicleDataFields :=
  { type := "vehicle_data",
    initContent := vehicleData_content vehicleDataDefault,
    fromObject := fun c => do
      let a1 ← dictGet c "sumo_id"
      let a2 ← dictGet c "controller_acceleration"
      let a3 ← dictGet c "acceleration"
      let a4 ← dictGet c "speed"
      let a5 ← dictGet c "time"
      let a6 ← dictGet c "x"
      let a7 ← dictGet c "y"
      let a8 ← dictGet c "sender"
      pure ⟨a1, a2, a3, a4, a5, a6, a7, a8⟩ }

/-- Constructor arguments of APICallMessage. -/
structure APICallFields where
  sumo_id : JVal
  api_code : JVal
  transaction_id : JVal
  parameters : JVal
  deriving DecidableEq, Repr

/-- The attributes APICallMessage.from_object assigns: transaction_id is
coerced with int(). -/
structure APICallDecoded where
  sumo_id : JVal
  api_code : JVal
  transaction_id : Int
  parameters : JVal
  deriving DecidableEq, Repr

/-- APICallMessage.__init__ content dict. -/
def apiCall_content (f : APICallFields) : Content :=
  [("sumo_id", f.sumo_id), ("api_code", f.api_code),
   ("transaction_id", f.transaction_id), ("parameters", f.parameters)]

/-- APICallMessage: type tag, default content, from_object with the int()
coercion of transaction_id. -/
def apiCallSpec : MsgSpec APICallDecoded :=
  { type := "api_call",
    initContent := apiCall_content ⟨JVal.jnull, JVal.jnull, JVal.jnull, JVal.jnull⟩,
    fromObject := fun c => do
      let s ← dictGet c "sumo_id"
      let a ← dictGet c "api_code"
      let tRaw ← dictGet c "transaction_id"
      let t ← pyInt tRaw
      let pa ← dictGet c "parameters"
      pure ⟨s, a, t, pa⟩ }

/-- Constructor arguments of APIResponseMessage. -/
structure APIReturnFields where
  sumo_id : JVal
  api_code : JVal
  transaction_id : JVal
  response : JVal
  deriving DecidableEq, Repr

/-- The attributes APIResponseMessage.from_object assigns. -/
structure APIReturnDecoded where
  sumo_id : JVal
  api_code : JVal
  transaction_id : Int
  response : JVal
  deriving DecidableEq, Repr

/-- APIResponseMessage.__init__ content dict. -/
def apiReturn_content (f : APIReturnFields) : Content :=
  [("sumo_id", f.sumo_id), ("api_code", f.api_code),
   ("transaction_id", f.transaction_id), ("response", f.response)]

/-- APIResponseMessage: type tag, default content, from_object with the
int() coercion of transaction_id. -/
def apiReturnSpec : MsgSpec APIReturnDecoded :=
  { type := "api_return",
    initContent := apiReturn_content ⟨JVal.jnull, JVal.jnull, JVal.jnull, JVal.jnull⟩,
    fromObject := fun c => do
      let s ← dictGet c "sumo_id"
      let a ← dictGet c "api_code"
      let tRaw ← dictGet c "transaction_id"
      let t ← pyInt tRaw
      let r ← dictGet c "response"
      pure ⟨s, a, t, r⟩ }

/-- Constructor arguments of PositionUpdateMessage. -/
structure PositionUpdateFields where
  colosseum_id : JVal
  x : JVal
  y : JVal
  crs : JVal
  deriving DecidableEq, Repr

/-- The attributes PositionUpdateMessage.from_object assigns (crs is not
restored from content). -/
structure PositionUpdateDecoded where
  colosseum_id : JVal
  x : JVal
  y : JVal
  deriving DecidableEq, Repr

/-- PositionUpdateMessage.__init__ content dict. -/
def positionUpdate_content (f : PositionUpdateFields) : Content :=
  [("colosseum_id", f.colosseum_id), ("x", f.x), ("y", f.y), ("crs", f.crs)]

/-- PositionUpdateMessage: type tag, default content (crs defaults to the
empty string) and from_object. -/
def positionUpdateSpec : MsgSpec PositionUpdateDecoded :=
  { type := "update_position",
    initContent :=
      positionUpdate_content ⟨JVal.jnull, JVal.jnull, JVal.jnull, JVal.jstr ""⟩,
    fromObject := fun c => do
      let ci ← dictGet c "colosseum_id"
      let hx ← dictGet c "x"
      let hy ← dictGet c "y"
      pure ⟨ci, hx, hy⟩ }

/-- CurrentTimeMessage fields. -/
structure CurrentTimeFields where
  time : JVal
  deriving DecidableEq, Repr

/-- CurrentTimeMessage.__init__ content dict. -/
def currentTime_content (f : CurrentTimeFields) : Content := [("time", f.time)]

/-- CurrentTimeMessage: type tag, default content and from_object. -/
def currentTimeSpec : MsgSpec CurrentTimeFields :=
  { type := "time",
    initContent := currentTime_content ⟨JVal.jnull⟩,
    fromObject := fun c => do
      let t ← dictGet c "time"
      pure ⟨t⟩ }

/-- StartSimulationMessage: empty content, no from_object override. -/
def startSimulationSpec : MsgSpec Unit :=
  { type := "start_simulation", initContent := [],
    fromObject := fun _ => Except.ok () }

/-- StopSimulationMessage: empty content, no from_object override. -/
def stopSimulationSpec : MsgSpec Unit :=
  { type := "stop_simulation", initContent := [],
    fromObject := fun _ => Except.ok () }

/-! ### Except-bind reduction helpers -/

/-- A parsed vehicle_data envelope whose content lacks the mandatory
sender key. -/
def c6Content : Content :=
  [("sumo_id", JVal.jstr "v0"), ("controller_acceleration", JVal.jint 0),
   ("acceleration", JVal.jint 0), ("speed", JVal.jint 20),
   ("time", JVal.jint 5), ("x", JVal.jint 1), ("y", JVal.jint 2)]

/-- The parsed envelope for the C6 witness. -/
def c6Parsed : Parsed :=
  Parsed.obj [("type", PVal.atom (JVal.jstr "vehicle_data")),
              ("content", PVal.obj c6Content)]

/-- A new_vehicle content dict with every declared key present and, as
for every envelope the system ever encodes, no undeclared timestamp
key. -/
def c6NewVehicleContent : Content :=
  newVehicle_content ⟨JVal.jstr "v0", JVal.jint 3, JVal.jnull, JVal.jnull⟩

/-- A complete parsed new_vehicle envelope for the C6 witness. -/
def c6NewVehicleParsed : Parsed :=
  Parsed.obj [("type", PVal.atom (JVal.jstr "new_vehicle")),
              ("content", PVal.obj c6NewVehicleContent)]

/-- A complete parsed vehicle_data envelope for the C6 witness. -/
def c6VehicleDataParsed : Parsed :=
  Parsed.obj [("type", PVal.atom (JVal.jstr "vehicle_data")),
              ("content", PVal.obj (vehicleData_content vehicleDataDefault))]

/-! ## Link monitor / controller state machine (cacc_application.py) -/

/-- plexe controller numbers (plexe.plexe_imp.ccparams).  Exact values
live in the external plexe package; only identity matters here. -/
def ACC : Int := 1

/-- plexe CACC controller number. -/
def CACC : Int := 2

/-- plexe parameter key for switching the active controller.  The five
PAR/CC_PAR constants stand for the distinct string constants of
plexe.plexe_imp.ccparams; only their distinctness and identity are used. -/
def PAR_ACTIVE_CONTROLLER : String := "par.active.controller"

/-- plexe parameter key for reading a vehicle's kinematic data. -/
def CC_PAR_VEHICLE_DATA : String := "cc.par.vehicle.data"

/-- plexe parameter key for pushing leader kinematic data. -/
def PAR_LEADER_SPEED_AND_ACCELERATION : String :=
  "par.leader.speed.and.acceleration"

/-- plexe parameter key for pushing preceding-vehicle kinematic data. -/
def PAR_PRECEDING_SPEED_AND_ACCELERATION : String :=
  "par.preceding.speed.and.acceleration"

/-- plexe parameter key for setting the desired speed. -/
def PAR_CC_DESIRED_SPEED : String := "par.cc.desired.speed"

/-- A received VehicleDataMessage as it reaches update_packets_stats.
The seqn attribute exists only when somebody called set_field("seqn", _)
on this very object; VehicleDataMessage.from_object does not restore it
from content, so a message reconstructed from JSON by the receive path
has no seqn attribute and accessing packet.seqn raises AttributeError. -/
structure RxPacket where
  seqnAttr : Option Int
  deriving DecidableEq, Repr

/-- Attribute access packet.seqn. -/
def packetSeqn (p : RxPacket) : Except PyExc Int :=
  match p.seqnAttr with
  | some n => Except.ok n
  | none => Except.error (PyExc.attributeError "seqn")

/-- What last_received_seqn stores for a source: the first receipt stores
the whole message object (update_packets_stats assigns the packet, not
packet.seqn), later receipts store the integer sequence number. -/
inductive StoredSeqn where
  | msgObject (p : RxPacket)
  | num (n : Int)
  deriving DecidableEq, Repr

/-- Python == between the stored value and the integer packet.seqn - 1: a
message object never equals an int. -/
def storedEqInt : StoredSeqn → Int → Bool
  | StoredSeqn.msgObject _, _ => false
  | StoredSeqn.num m, n => m = n

/-- Python dict read d[k] for string-keyed dicts of arbitrary values. -/
def sdictGet {α : Type} (m : List (String × α)) (k : String) :
    Except PyExc α :=
  match dlookup m k with
  | some v => Except.ok v
  | none => Except.error (PyExc.keyError k)

/-- The link-monitor part of a CACCApplication instance's state:
using_cacc is the controller mode flag (true = Cooperative/CACC, false =
Degraded/ACC), api_calls logs the (api_code, parameters) pairs passed to
call_plexe_api. -/
structure CaccState where
  run : Bool
  is_leader : Bool
  leader : String
  preceding : String
  using_cacc : Bool
  run_loss_monitors : Bool
  last_received_time : List (String × ℚ)
  last_received_seqn : List (String × StoredSeqn)
  consecutive_packets : List (String × Int)
  api_calls : List (String × String)
  deriving DecidableEq, Repr

/-- CACCApplication.update_packets_stats, transliterated; now is the
wall-clock instant time_ns() / 1e9 at the call.  On an exception the
Except.error is the exception propagating out of the method (the partial
mutation preceding it is not retained by the embedding; no claim inspects
the state after an exception). -/
def update_packets_stats (st : CaccState) (source : String)
    (packet : RxPacket) (now : ℚ) : Except PyExc CaccState := do
  let st1 := { st with
    last_received_time := dset st.last_received_time source now }
  let st2 ←
    match dlookup st1.last_received_seqn source with
    | none =>
        pure { st1 with
          last_received_seqn :=
            dset st1.last_received_seqn source (StoredSeqn.msgObject packet),
          consecutive_packets := dset st1.consecutive_packets source 0 }
    | some stored => do
        let q ← packetSeqn packet
        let stc ←
          if storedEqInt stored (q - 1) then do
            let c ← sdictGet st1.consecutive_packets source
            pure { st1 with
              consecutive_packets := dset st1.consecutive_packets source (c + 1) }
          else
            pure { st1 with
              consecutive_packets := dset st1.consecutive_packets source 0 }
        pure { stc with
          last_received_seqn :=
            dset stc.last_received_seqn source (StoredSeqn.num q) }
  if !st2.is_leader && !st2.using_cacc then do
    let cl ← sdictGet st2.consecutive_packets st2.leader
    if cl ≥ 5 then do
      let cp ← sdictGet st2.consecutive_packets st2.preceding
      if cp ≥ 5 then
        pure { st2 with
          using_cacc := true,
          api_calls :=
            st2.api_calls ++ [(PAR_ACTIVE_CONTROLLER, toString CACC)],
          run_loss_monitors := true }
      else pure st2
    else pure st2
  else pure st2

/-- CACCApplication.loss_detected: switch the controller to ACC, leave
Cooperative mode, and stop every per-link loss monitor. -/
def loss_detected (st : CaccState) : CaccState :=
  { st with
    api_calls := st.api_calls ++ [(PAR_ACTIVE_CONTROLLER, toString ACC)],
    using_cacc := false,
    run_loss_monitors := false }

/-- One iteration of the CACCApplication.loss_monitor loop body for the
monitored vehicle at wall-clock instant now: when the loops flags are
set, a silence longer than 0.5 seconds since the last recorded receipt
from that vehicle triggers loss_detected; a vehicle with no recorded
receipt is not checked. -/
def loss_monitor_check (st : CaccState) (vehicle : String) (now : ℚ) :
    CaccState :=
  if st.run && st.run_loss_monitors then
    if (dlookup st.last_received_time vehicle).isSome then
      if now - ((dlookup st.last_received_time vehicle).getD 0) > 1/2 then
        loss_detected st
      else st
    else st
  else st

/-! ## Claims C7 and C8 -/

/-- A non-leader follower state (leader v0, preceding v1) with no packet
statistics yet; using_cacc is true so the recovery check is skipped and
the counter-update rule is isolated. -/
def c7State : CaccState :=
  { run := true, is_leader := false, leader := "v0", preceding := "v1",
    using_cacc := true, run_loss_monitors := true,
    last_received_time := [], last_received_seqn := [],
    consecutive_packets := [], api_calls := [] }

/-- A cooperative follower that has recorded a receipt from its preceding
vehicle v1 but never received anything from its leader v0. -/
def c8NoPacketState : CaccState :=
  { run := true, is_leader := false, leader := "v0", preceding := "v1",
    using_cacc := true, run_loss_monitors := true,
    last_received_time := [("v1", 0)], last_received_seqn := [],
    consecutive_packets := [], api_calls := [] }

/-- The concrete state for the C8 witness: last receipt from the leader
v0 recorded at time 0, checked at time 1. -/
def c8WitnessState : CaccState :=
  { run := true, is_leader := false, leader := "v0", preceding := "v1",
    using_cacc := true, run_loss_monitors := true,
    last_received_time := [("v0", 0)], last_received_seqn := [],
    consecutive_packets := [], api_calls := [] }

/-! ## API interpreter (api_interpreter.py) -/

/-- The plexe VehicleData record returned by plexe.get_vehicle_data, with
the fields __plexe_vehicle_data_to_mqtt reads (u is the controller
acceleration). -/
structure PlexeVehicleData where
  u : JVal
  acceleration : JVal
  speed : JVal
  time : JVal
  pos_x : JVal
  pos_y : JVal
  deriving DecidableEq, Repr

/-- The plexe VehicleData record the interpreter builds from a decoded
message and passes to the set operations
(__mqtt_to_plexe_vehicle_data). -/
structure PlexeVehicleDataArg where
  index : JVal
  u : JVal
  acceleration : JVal
  speed : JVal
  pos_x : JVal
  pos_y : JVal
  time : JVal
  deriving DecidableEq, Repr

/-- APIInterpreter.__mqtt_to_plexe_vehicle_data: VehicleData(None,
msg.controller_acceleration, msg.acceleration, msg.speed, msg.x, msg.y,
msg.time). -/
def mqtt_to_plexe_vehicle_data (msg : VehicleDataFields) :
    PlexeVehicleDataArg :=
  ⟨JVal.jnull, msg.controller_acceleration, msg.acceleration, msg.speed,
   msg.x, msg.y, msg.time⟩

/-- The TraCI failure serve_api_call catches: FatalTraCIError raised by
the external simulation API. -/
inductive PlexeErr where
  | fatalTraCIError
  deriving DecidableEq, Repr

/-- The external plexe simulation-control API as observed by
serve_api_call: each operation either succeeds or raises
FatalTraCIError. -/
structure PlexeOracle where
  get_vehicle_data : String → Except PlexeErr PlexeVehicleData
  set_leader_vehicle_data :
    String → PlexeVehicleDataArg → Except PlexeErr Unit
  set_front_vehicle_data :
    String → PlexeVehicleDataArg → Except PlexeErr Unit
  set_cc_desired_speed : String → JVal → Except PlexeErr Unit
  set_active_controller : String → Int → Except PlexeErr Unit

/-- The value stored in the response content's response field. -/
inductive RespVal where
  | null
  | trueLit
  | vehicleDataJson (sumo_id : String) (d : PlexeVehicleData)
  deriving DecidableEq, Repr

/-- The APIResponseMessage serve_api_call builds: the entity id taken
from the call topic, api_code and transaction_id from the decoded call
envelope, and the content response field (None until a branch sets
it). -/
structure ServeResponse where
  sumo_id : String
  api_code : JVal
  transaction_id : Int
  response : RespVal
  deriving DecidableEq, Repr

/-- Exceptions inside the try block of serve_api_call: the caught
FatalTraCIError, or any other Python exception, which propagates out of
serve_api_call uncaught. -/
inductive ServeErr where
  | traci
  | py (e : PyExc)
  deriving DecidableEq, Repr

/-- Lifts an external-API result into the try block (FatalTraCIError is
the caught error). -/
def liftPlexe {α : Type} : Except PlexeErr α → Except ServeErr α
  | Except.ok a => Except.ok a
  | Except.error PlexeErr.fatalTraCIError => Except.error ServeErr.traci

/-- json.loads applied to the call's parameters value by the nested
VehicleDataMessage.from_json: loads requires a string, and the structural
parse outcome of that string is supplied as paramsParse (header
conventions). -/
def loadsValue (v : JVal) (paramsParse : Payload) : Except PyExc Parsed :=
  match v with
  | JVal.jstr _ =>
      match paramsParse with
      | Payload.malformed => Except.error PyExc.jsonDecodeError
      | Payload.wellFormed p => Except.ok p
  | _ => Except.error PyExc.typeError

/-- msg = VehicleDataMessage(); msg.from_json(call parameters), with the
boolean result ignored exactly as the interpreter does: the message's
typed attributes afterwards are the decoded fields on success and the
constructor defaults when from_json returned False; exceptions raised by
loads or from_json propagate. -/
def parseVehicleDataParams (v : JVal) (paramsParse : Payload) :
    Except PyExc VehicleDataFields := do
  let p ← loadsValue v paramsParse
  let r ← msg_from_json vehicleDataSpec (Payload.wellFormed p)
  match r.1 with
  | some f => pure f
  | none => pure vehicleDataDefault

/-- Lifts a Python exception into the try block: it is not the caught
FatalTraCIError, so it propagates. -/
def liftPy {α : Type} : Except PyExc α → Except ServeErr α
  | Except.ok a => Except.ok a
  | Except.error e => Except.error (ServeErr.py e)

/-- The CC_PAR_VEHICLE_DATA branch of serve_api_call. -/
def serve_branch1 (topicId : String) (call : APICallDecoded)
    (plexe : PlexeOracle) (r : ServeResponse) :
    Except ServeErr ServeResponse :=
  if call.api_code = JVal.jstr CC_PAR_VEHICLE_DATA then
    (liftPlexe (plexe.get_vehicle_data topicId)) >>= (fun data =>
      Except.ok { r with response := RespVal.vehicleDataJson topicId data })
  else Except.ok r

/-- The PAR_LEADER_SPEED_AND_ACCELERATION branch of serve_api_call. -/
def serve_branch2 (topicId : String) (call : APICallDecoded)
    (paramsParse : Payload) (plexe : PlexeOracle) (r : ServeResponse) :
    Except ServeErr ServeResponse :=
  if call.api_code = JVal.jstr PAR_LEADER_SPEED_AND_ACCELERATION then
    (liftPy (parseVehicleDataParams call.parameters paramsParse)) >>= (fun msg =>
      (liftPlexe (plexe.set_leader_vehicle_data topicId
        (mqtt_to_plexe_vehicle_data msg))) >>= (fun _ =>
          Except.ok { r with response := RespVal.trueLit }))
  else Except.ok r

/-- The PAR_PRECEDING_SPEED_AND_ACCELERATION branch of serve_api_call. -/
def serve_branch3 (topicId : String) (call : APICallDecoded)
    (paramsParse : Payload) (plexe : PlexeOracle) (r : ServeResponse) :
    Except ServeErr ServeResponse :=
  if call.api_code = JVal.jstr PAR_PRECEDING_SPEED_AND_ACCELERATION then
    (liftPy (parseVehicleDataParams call.parameters paramsParse)) >>= (fun msg =>
      (liftPlexe (plexe.set_front_vehicle_data topicId
        (mqtt_to_plexe_vehicle_data msg))) >>= (fun _ =>
          Except.ok { r with response := RespVal.trueLit }))
  else Except.ok r

/-- The PAR_CC_DESIRED_SPEED branch of serve_api_call. -/
def serve_branch4 (topicId : String) (call : APICallDecoded)
    (paramsParse : Payload) (plexe : PlexeOracle) (r : ServeResponse) :
    Except ServeErr ServeResponse :=
  if call.api_code = JVal.jstr PAR_CC_DESIRED_SPEED then
    (liftPy (parseVehicleDataParams call.parameters paramsParse)) >>= (fun msg =>
      (liftPlexe (plexe.set_cc_desired_speed topicId msg.speed)) >>= (fun _ =>
        Except.ok { r with response := RespVal.trueLit }))
  else Except.ok r

/-- The PAR_ACTIVE_CONTROLLER branch of serve_api_call: the parameters
string is coerced with int(), whose ValueError is not caught by the
FatalTraCIError handler. -/
def serve_branch5 (topicId : String) (call : APICallDecoded)
    (plexe : PlexeOracle) (r : ServeResponse) :
    Except ServeErr ServeResponse :=
  if call.api_code = JVal.jstr PAR_ACTIVE_CONTROLLER then
    (liftPy (pyInt call.parameters)) >>= (fun controller =>
      (liftPlexe (plexe.set_active_controller topicId controller)) >>= (fun _ =>
        Except.ok { r with response := RespVal.trueLit }))
  else Except.ok r

/-- The try block of serve_api_call: the five sequential if statements
acting on the response object. -/
def serve_body (topicId : String) (call : APICallDecoded)
    (paramsParse : Payload) (plexe : PlexeOracle) (r0 : ServeResponse) :
    Except ServeErr ServeResponse :=
  (serve_branch1 topicId call plexe r0) >>= (fun r1 =>
    (serve_branch2 topicId call paramsParse plexe r1) >>= (fun r2 =>
      (serve_branch3 topicId call paramsParse plexe r2) >>= (fun r3 =>
        (serve_branch4 topicId call paramsParse plexe r3) >>= (fun r4 =>
          serve_branch5 topicId call plexe r4))))

/-- APIResponseMessage(sumo_id, call_msg.api_code,
call_msg.transaction_id): the response before any branch runs. -/
def initResponse (topicId : String) (call : APICallDecoded) : ServeResponse :=
  ServeResponse.mk topicId call.api_code call.transaction_id RespVal.null

/-- APIInterpreter.serve_api_call for a decodable call envelope, with the
entity id already split from the topic: runs the five dispatch branches
inside the try block; a FatalTraCIError discards the response (ok none);
any other exception propagates out of serve_api_call. -/
def serve_api_call (topicId : String) (call : APICallDecoded)
    (paramsParse : Payload) (plexe : PlexeOracle) :
    Except PyExc (Option ServeResponse) :=
  match serve_body topicId call paramsParse plexe (initResponse topicId call) with
  | Except.ok r => Except.ok (some r)
  | Except.error ServeErr.traci => Except.ok none
  | Except.error (ServeErr.py e) => Except.error e

/-- An all-succeeding external API, used by concrete witnesses. -/
def okOracle : PlexeOracle :=
  { get_vehicle_data := fun _ =>
      Except.ok ⟨JVal.jnull, JVal.jnull, JVal.jnull, JVal.jnull,
        JVal.jnull, JVal.jnull⟩,
    set_leader_vehicle_data := fun _ _ => Except.ok (),
    set_front_vehicle_data := fun _ _ => Except.ok (),
    set_cc_desired_speed := fun _ _ => Except.ok (),
    set_active_controller := fun _ _ => Except.ok () }

/-! ## Claims C9 and C10 -/

/-- A decodable api_call envelope selecting the active-controller
operation with a non-numeric parameters string. -/
def c9BadCall : APICallDecoded :=
  ⟨JVal.jstr "v0", JVal.jstr PAR_ACTIVE_CONTROLLER, 7, JVal.jstr "abc"⟩

/-- A decodable active-controller call with a numeric parameters
string. -/
def c9WitnessCall : APICallDecoded :=
  ⟨JVal.jstr "v0", JVal.jstr PAR_ACTIVE_CONTROLLER, 7, JVal.jstr "2"⟩

/-- A decodable call envelope with an unrecognized api_code. -/
def c10WitnessCall : APICallDecoded :=
  ⟨JVal.jstr "v0", JVal.jstr "unknown.api", 9, JVal.jnull⟩

/-- The RPC-bridge state for the C4 witness: one pending transaction (id
3) with no stored result. -/
def c4WitnessState : AppState := AppState.mk "v0" [(3, 0)] []

/-- The response envelope for the C4 witness. -/
def c4WitnessMsg : APIResponseFields :=
  APIResponseFields.mk "v0" (JVal.jstr "api") 3 (JVal.jstr "result")

/-! ## Theorems -/

/-! ## Claims C1 and C2 -/

/-- C1.  Evaluation of the code at the failing input: starting from the
initial state with node inventory [0], assigning vehicle v0 and then
releasing it leaves the binding v0 -> 0 in the lease map, so
get_colosseum_node still reports 0 instead of the NOT_LEASED sentinel -1;
release did return the node to the free set, and release of an unleased
vehicle is a no-op returning -1.  The claim states that after release the
entity-to-node binding is removed and nodeOf(entity) reports NOT_LEASED;
release_colosseum_node never deletes from vehicle_to_node, so the claim
fails on the code. -/
theorem C1_release_leaves_binding :
    (release_colosseum_node
        (assign_free_colosseum_node (ColState.mk [0] []) "v0").2 "v0").2 =
      ColState.mk [0] [("v0", 0)] ∧
    get_colosseum_node
        (release_colosseum_node
          (assign_free_colosseum_node (ColState.mk [0] []) "v0").2 "v0").2 "v0" = 0 ∧
    release_colosseum_node (ColState.mk [0] []) "v0" =
      (-1, ColState.mk [0] []) := by
  refine ⟨rfl, rfl, rfl⟩

/-- C2.  Evaluation of the code at the failing input: with node inventory
[0], after assign(v0) followed by release(v0) the node 0 is simultaneously
in the free-node set and bound in the lease map, so the free set and the
bound set are not disjoint (their union does still equal the inventory).
The claimed invariant that the free set and the bound set are disjoint in
every reachable state therefore fails on the code, because
release_colosseum_node returns the node to the free set without removing
the binding. -/
theorem C2_disjointness_fails :
    (release_colosseum_node
        (assign_free_colosseum_node (ColState.mk [0] []) "v0").2 "v0").2.available_nodes
      = [0] ∧
    boundNodes
        (release_colosseum_node
          (assign_free_colosseum_node (ColState.mk [0] []) "v0").2 "v0").2
      = [0] := by
  refine ⟨rfl, rfl⟩

/-! ### Association-list helper lemmas -/

theorem dlookup_dset_self {κ α : Type} [DecidableEq κ]
    (m : List (κ × α)) (k : κ) (v : α) : dlookup (dset m k v) k = some v := by
  induction m with
  | nil => simp [dset, dlookup]
  | cons hd tl ih =>
      by_cases hk : hd.1 = k
      · simp [dset, hk, dlookup]
      · simp [dset, hk, dlookup, Ne.symm hk, ih]

theorem dlookup_semRelease (m : List (Int × Nat)) (tid : Int) :
    dlookup (semRelease m tid) tid = (dlookup m tid).map (fun n => n + 1) := by
  induction m with
  | nil => rfl
  | cons hd tl ih =>
      obtain ⟨k, v⟩ := hd
      by_cases hk : k = tid
      · subst hk
        simp [semRelease, dlookup]
      · simp only [semRelease, if_neg hk, dlookup]
        rw [if_neg (fun h => hk h.symm), if_neg (fun h => hk h.symm)]
        exact ih

/-! ## Claims C3 and C4 -/

/-- C3, counterexample.  The claim states that allocation of the next
transaction identifier and registration of the pending-transaction
semaphore are both performed inside the exclusive lock guarding the
transaction counter.  In call_plexe_api the semaphore is registered in
api_semaphores only after mutex_transaction has been released, so the
registration statement executes with the lock not held. -/
theorem C3_registration_not_locked :
    lockedDuring CallAction.registerSemaphore = false := by rfl

/-- C3, amended.  In call_plexe_api the transaction-identifier allocation
(reading and incrementing the counter) executes with mutex_transaction
held, while the registration of the per-transaction semaphore executes
after the lock has been released; registration does however precede the
publication of the call envelope, so each call's pending slot exists
before any response to that call can be dispatched. -/
theorem C3_allocation_locked_registration_before_publish :
    lockedDuring CallAction.readTransactionId = true ∧
    lockedDuring CallAction.incrementTransactionId = true ∧
    lockedDuring CallAction.registerSemaphore = false ∧
    actionIndex CallAction.registerSemaphore < actionIndex CallAction.publishCall := by
  refine ⟨rfl, rfl, rfl, by decide⟩

/-- C4.  For a response envelope carrying this vehicle's sumo_id,
__plexe_api_return terminates the process (os._exit(1)) whenever the
transaction id has no pending semaphore entry or a result is already
stored for it; and a response is delivered exactly when the id has a
pending entry and no stored result, in which case the response is stored
under the id, its semaphore is released exactly once, and any further
response for the same transaction id can never again be delivered (it is
ignored or terminates the process). -/
theorem C4_at_most_one_response (st : AppState) (msg : APIResponseFields)
    (h : msg.sumo_id = st.sumo_id) :
    ((dlookup st.api_semaphores msg.transaction_id = none ∨
        (dlookup st.api_call_return_value msg.transaction_id).isSome = true) →
      plexe_api_return st msg = ReturnOutcome.fatalExit) ∧
    (∀ st₂, plexe_api_return st msg = ReturnOutcome.delivered st₂ →
      (dlookup st.api_semaphores msg.transaction_id).isSome = true ∧
      dlookup st.api_call_return_value msg.transaction_id = none ∧
      dlookup st₂.api_call_return_value msg.transaction_id = some msg.response ∧
      (∀ k, dlookup st.api_semaphores msg.transaction_id = some k →
        dlookup st₂.api_semaphores msg.transaction_id = some (k + 1)) ∧
      (∀ msg₂ : APIResponseFields, msg₂.transaction_id = msg.transaction_id →
        ∀ st₃, plexe_api_return st₂ msg₂ ≠ ReturnOutcome.delivered st₃)) := by
  constructor
  · intro hcase
    unfold plexe_api_return
    rw [if_neg (by simp [h])]
    rcases hcase with hnone | hsome
    · rw [if_pos hnone]
    · by_cases hsem : dlookup st.api_semaphores msg.transaction_id = none
      · rw [if_pos hsem]
      · rw [if_neg hsem, if_pos hsome]
  · intro st₂ hdel
    unfold plexe_api_return at hdel
    rw [if_neg (by simp [h])] at hdel
    by_cases hsem : dlookup st.api_semaphores msg.transaction_id = none
    · rw [if_pos hsem] at hdel
      exact absurd hdel (by simp)
    · rw [if_neg hsem] at hdel
      by_cases hrv : (dlookup st.api_call_return_value msg.transaction_id).isSome = true
      · rw [if_pos hrv] at hdel
        exact absurd hdel (by simp)
      · rw [if_neg hrv] at hdel
        injection hdel with hst
        subst hst
        refine ⟨Option.ne_none_iff_isSome.mp hsem,
          Option.not_isSome_iff_eq_none.mp hrv,
          dlookup_dset_self _ _ _, ?_, ?_⟩
        · intro k hk
          show dlookup (semRelease st.api_semaphores msg.transaction_id)
            msg.transaction_id = some (k + 1)
          rw [dlookup_semRelease, hk]
          rfl
        · intro msg₂ htid st₃ hcon
          unfold plexe_api_return at hcon
          dsimp only at hcon
          rw [htid] at hcon
          by_cases hs2 : msg₂.sumo_id ≠ st.sumo_id
          · rw [if_pos hs2] at hcon
            exact absurd hcon (by simp)
          · rw [if_neg hs2] at hcon
            rw [if_neg (by
              simp only [dlookup_semRelease, Option.map_eq_none']
              exact hsem)] at hcon
            rw [if_pos (by rw [dlookup_dset_self]; rfl)] at hcon
            exact absurd hcon (by simp)

/-! ### Round-trip facts for the kinds whose from_object reads only
declared keys (these are not in question in any claim, but delimit the
new_vehicle defect below) -/

theorem vehicleData_roundtrip (f : VehicleDataFields) :
    msg_from_json vehicleDataSpec
        (encodePayload vehicleDataSpec.type (vehicleData_content f)) =
      Except.ok (some f, vehicleData_content f) := rfl

theorem apiCall_roundtrip (f : APICallFields) (n : Int)
    (h : f.transaction_id = JVal.jint n) :
    msg_from_json apiCallSpec
        (encodePayload apiCallSpec.type (apiCall_content f)) =
      Except.ok (some ⟨f.sumo_id, f.api_code, n, f.parameters⟩,
        apiCall_content f) := by
  obtain ⟨s, a, t, p⟩ := f
  cases h
  rfl

theorem apiReturn_roundtrip (f : APIReturnFields) (n : Int)
    (h : f.transaction_id = JVal.jint n) :
    msg_from_json apiReturnSpec
        (encodePayload apiReturnSpec.type (apiReturn_content f)) =
      Except.ok (some ⟨f.sumo_id, f.api_code, n, f.response⟩,
        apiReturn_content f) := by
  obtain ⟨s, a, t, r⟩ := f
  cases h
  rfl

theorem currentTime_roundtrip (f : CurrentTimeFields) :
    msg_from_json currentTimeSpec
        (encodePayload currentTimeSpec.type (currentTime_content f)) =
      Except.ok (some f, currentTime_content f) := rfl

/-! ## Claims C5 and C6 -/

/-- C5.  Evaluation of the code at the failing input: decoding the bytes
produced by encoding a new_vehicle message raises KeyError for the
undeclared timestamp key instead of returning the original field set,
because NewVehicleMessage.from_object reads self.content with a
timestamp key that neither the constructor nor the declared field set
ever produces; DeleteVehicleMessage inherits the same from_object.  The
claimed codec round-trip property therefore fails on the code for the
new_vehicle kind (the other kinds round-trip, see the round-trip facts
above). -/
theorem C5_new_vehicle_roundtrip_raises :
    msg_from_json newVehicleSpec
        (encodePayload newVehicleSpec.type
          (newVehicle_content
            ⟨JVal.jstr "v0", JVal.jint 3,
             JVal.jstr "cacc_application.CACCApplication",
             JVal.jstr "params"⟩)) =
      Except.error (PyExc.keyError "timestamp") := rfl

/-! ### Except-bind reduction helpers -/

theorem except_bind_ok {ε α β : Type} (a : α) (f : α → Except ε β) :
    (Except.ok a : Except ε α) >>= f = f a := rfl

theorem except_bind_err {ε α β : Type} (e : ε) (f : α → Except ε β) :
    (Except.error e : Except ε α) >>= f = Except.error e := rfl

/-- dictGet returns the looked-up value when the key is present. -/
theorem dictGet_ok {c : Content} {k : String} {v : JVal}
    (h : dlookup c k = some v) : dictGet c k = Except.ok v := by
  simp [dictGet, h]

/-- When every declared vehicle_data key is present in the content,
VehicleDataMessage.from_object succeeds. -/
theorem vehicleData_fromObject_ok (c : Content)
    (h : check_for_keys (specKeys vehicleDataSpec) c = true) :
    ∃ f, vehicleDataSpec.fromObject c = Except.ok f := by
  simp only [check_for_keys, specKeys, vehicleDataSpec, vehicleData_content,
    vehicleDataDefault, List.map_cons, List.map_nil, List.all_cons,
    List.all_nil, Bool.and_eq_true, Bool.and_true] at h
  obtain ⟨h1, h2, h3, h4, h5, h6, h7, h8⟩ := h
  obtain ⟨v1, hv1⟩ := Option.isSome_iff_exists.mp h1
  obtain ⟨v2, hv2⟩ := Option.isSome_iff_exists.mp h2
  obtain ⟨v3, hv3⟩ := Option.isSome_iff_exists.mp h3
  obtain ⟨v4, hv4⟩ := Option.isSome_iff_exists.mp h4
  obtain ⟨v5, hv5⟩ := Option.isSome_iff_exists.mp h5
  obtain ⟨v6, hv6⟩ := Option.isSome_iff_exists.mp h6
  obtain ⟨v7, hv7⟩ := Option.isSome_iff_exists.mp h7
  obtain ⟨v8, hv8⟩ := Option.isSome_iff_exists.mp h8
  refine ⟨⟨v1, v2, v3, v4, v5, v6, v7, v8⟩, ?_⟩
  simp only [vehicleDataSpec]
  rw [dictGet_ok hv1]
  simp only [except_bind_ok]
  rw [dictGet_ok hv2]
  simp only [except_bind_ok]
  rw [dictGet_ok hv3]
  simp only [except_bind_ok]
  rw [dictGet_ok hv4]
  simp only [except_bind_ok]
  rw [dictGet_ok hv5]
  simp only [except_bind_ok]
  rw [dictGet_ok hv6]
  simp only [except_bind_ok]
  rw [dictGet_ok hv7]
  simp only [except_bind_ok]
  rw [dictGet_ok hv8]
  rfl

/-- Unfolding of msg_from_json on a parseable payload, as an explicit
bind chain. -/
theorem msg_from_json_wellFormed {α : Type} (spec : MsgSpec α) (p : Parsed) :
    msg_from_json spec (Payload.wellFormed p) =
      (getAttr p "type") >>= (fun t =>
        if t = PVal.atom (JVal.jstr spec.type) then
          (getAttr p "content") >>= (fun c =>
            (pvalDict c) >>= (fun content =>
              if check_for_keys (specKeys spec) content then
                (spec.fromObject content) >>= (fun a =>
                  pure (some a, content))
              else pure (none, content)))
        else pure (none, spec.initContent)) := rfl

/-- C6, counterexample.  The claim states that decoding fails by
returning an error value and never by throwing into the caller, in
particular when the payload is not parseable in the envelope's structural
format.  Message.from_json does not guard the json.loads call, so an
unparseable payload raises json.JSONDecodeError into the caller
(Except.error embeds the propagating exception). -/
theorem C6_unparseable_payload_raises :
    msg_from_json vehicleDataSpec Payload.malformed =
      Except.error PyExc.jsonDecodeError := rfl

/-- dictGet raises KeyError when the key is absent. -/
theorem dictGet_err {c : Content} {k : String} (h : dlookup c k = none) :
    dictGet c k = Except.error (PyExc.keyError k) := by
  simp [dictGet, h]

/-- When the declared time key is present, CurrentTimeMessage.from_object
succeeds. -/
theorem currentTime_fromObject_ok (c : Content)
    (h : check_for_keys (specKeys currentTimeSpec) c = true) :
    ∃ f, currentTimeSpec.fromObject c = Except.ok f := by
  simp only [check_for_keys, specKeys, currentTimeSpec, currentTime_content,
    List.map_cons, List.map_nil, List.all_cons, List.all_nil,
    Bool.and_eq_true, Bool.and_true] at h
  obtain ⟨v1, hv1⟩ := Option.isSome_iff_exists.mp h
  refine ⟨⟨v1⟩, ?_⟩
  simp only [currentTimeSpec]
  rw [dictGet_ok hv1]
  rfl

/-- When every declared update_position key is present,
PositionUpdateMessage.from_object succeeds (it reads only colosseum_id, x
and y). -/
theorem positionUpdate_fromObject_ok (c : Content)
    (h : check_for_keys (specKeys positionUpdateSpec) c = true) :
    ∃ f, positionUpdateSpec.fromObject c = Except.ok f := by
  simp only [check_for_keys, specKeys, positionUpdateSpec,
    positionUpdate_content, List.map_cons, List.map_nil, List.all_cons,
    List.all_nil, Bool.and_eq_true, Bool.and_true] at h
  obtain ⟨h1, h2, h3, h4⟩ := h
  obtain ⟨v1, hv1⟩ := Option.isSome_iff_exists.mp h1
  obtain ⟨v2, hv2⟩ := Option.isSome_iff_exists.mp h2
  obtain ⟨v3, hv3⟩ := Option.isSome_iff_exists.mp h3
  refine ⟨⟨v1, v2, v3⟩, ?_⟩
  simp only [positionUpdateSpec]
  rw [dictGet_ok hv1]
  simp only [except_bind_ok]
  rw [dictGet_ok hv2]
  simp only [except_bind_ok]
  rw [dictGet_ok hv3]
  rfl

/-- With every declared new_vehicle key present and no timestamp entry
(no producer ever emits one), NewVehicleMessage.from_object raises
KeyError for the undeclared timestamp key it reads last. -/
theorem newVehicle_fromObject_keyError (c : Content)
    (h : check_for_keys (specKeys newVehicleSpec) c = true)
    (hts : dlookup c "timestamp" = none) :
    newVehicleSpec.fromObject c = Except.error (PyExc.keyError "timestamp") := by
  simp only [check_for_keys, specKeys, newVehicleSpec, newVehicle_content,
    List.map_cons, List.map_nil, List.all_cons, List.all_nil,
    Bool.and_eq_true, Bool.and_true] at h
  obtain ⟨h1, h2, h3, h4⟩ := h
  obtain ⟨v1, hv1⟩ := Option.isSome_iff_exists.mp h1
  obtain ⟨v2, hv2⟩ := Option.isSome_iff_exists.mp h2
  obtain ⟨v3, hv3⟩ := Option.isSome_iff_exists.mp h3
  obtain ⟨v4, hv4⟩ := Option.isSome_iff_exists.mp h4
  simp only [newVehicleSpec]
  rw [dictGet_ok hv1]
  simp only [except_bind_ok]
  rw [dictGet_ok hv2]
  simp only [except_bind_ok]
  rw [dictGet_ok hv3]
  simp only [except_bind_ok]
  rw [dictGet_ok hv4]
  simp only [except_bind_ok]
  rw [dictGet_err hts]
  rfl

/-- With every declared api_call key present, APICallMessage.from_object
succeeds exactly when the int() coercion of the transaction_id value
does, raising the coercion's exception otherwise. -/
theorem apiCall_fromObject_cases (c : Content) (tv : JVal)
    (h : check_for_keys (specKeys apiCallSpec) c = true)
    (htv : dlookup c "transaction_id" = some tv) :
    (∀ n, pyInt tv = Except.ok n →
      ∃ d, apiCallSpec.fromObject c = Except.ok d) ∧
    (∀ e, pyInt tv = Except.error e →
      apiCallSpec.fromObject c = Except.error e) := by
  simp only [check_for_keys, specKeys, apiCallSpec, apiCall_content,
    List.map_cons, List.map_nil, List.all_cons, List.all_nil,
    Bool.and_eq_true, Bool.and_true] at h
  obtain ⟨h1, h2, h3, h4⟩ := h
  obtain ⟨v1, hv1⟩ := Option.isSome_iff_exists.mp h1
  obtain ⟨v2, hv2⟩ := Option.isSome_iff_exists.mp h2
  obtain ⟨v4, hv4⟩ := Option.isSome_iff_exists.mp h4
  constructor
  · intro n hn
    refine ⟨⟨v1, v2, n, v4⟩, ?_⟩
    simp only [apiCallSpec]
    rw [dictGet_ok hv1]
    simp only [except_bind_ok]
    rw [dictGet_ok hv2]
    simp only [except_bind_ok]
    rw [dictGet_ok htv]
    simp only [except_bind_ok]
    rw [hn]
    simp only [except_bind_ok]
    rw [dictGet_ok hv4]
    rfl
  · intro e he
    simp only [apiCallSpec]
    rw [dictGet_ok hv1]
    simp only [except_bind_ok]
    rw [dictGet_ok hv2]
    simp only [except_bind_ok]
    rw [dictGet_ok htv]
    simp only [except_bind_ok]
    rw [he]
    rfl

/-- With every declared api_return key present,
APIResponseMessage.from_object succeeds exactly when the int() coercion
of the transaction_id value does, raising the coercion's exception
otherwise. -/
theorem apiReturn_fromObject_cases (c : Content) (tv : JVal)
    (h : check_for_keys (specKeys apiReturnSpec) c = true)
    (htv : dlookup c "transaction_id" = some tv) :
    (∀ n, pyInt tv = Except.ok n →
      ∃ d, apiReturnSpec.fromObject c = Except.ok d) ∧
    (∀ e, pyInt tv = Except.error e →
      apiReturnSpec.fromObject c = Except.error e) := by
  simp only [check_for_keys, specKeys, apiReturnSpec, apiReturn_content,
    List.map_cons, List.map_nil, List.all_cons, List.all_nil,
    Bool.and_eq_true, Bool.and_true] at h
  obtain ⟨h1, h2, h3, h4⟩ := h
  obtain ⟨v1, hv1⟩ := Option.isSome_iff_exists.mp h1
  obtain ⟨v2, hv2⟩ := Option.isSome_iff_exists.mp h2
  obtain ⟨v4, hv4⟩ := Option.isSome_iff_exists.mp h4
  constructor
  · intro n hn
    refine ⟨⟨v1, v2, n, v4⟩, ?_⟩
    simp only [apiReturnSpec]
    rw [dictGet_ok hv1]
    simp only [except_bind_ok]
    rw [dictGet_ok hv2]
    simp only [except_bind_ok]
    rw [dictGet_ok htv]
    simp only [except_bind_ok]
    rw [hn]
    simp only [except_bind_ok]
    rw [dictGet_ok hv4]
    rfl
  · intro e he
    simp only [apiReturnSpec]
    rw [dictGet_ok hv1]
    simp only [except_bind_ok]
    rw [dictGet_ok hv2]
    simp only [except_bind_ok]
    rw [dictGet_ok htv]
    simp only [except_bind_ok]
    rw [he]
    rfl

/-- C6, amended.  For every expected kind and every input payload,
decoding fails by returning the False error value exactly when the
payload parses to an envelope with a type attribute and either the type
differs from the expected kind (the original content is retained) or the
type matches, the content attribute is an object, and a field mandatory
for that kind is missing (with the foreign content already adopted,
since self.content is overwritten before the key check); an unparseable
payload, an envelope without a type attribute, a matching envelope
without a content attribute, or one whose content is not an object
raises an exception into the caller; and when the type matches and every
mandatory field is present, the outcome is that of the kind's
from_object: success for time, update_position, vehicle_data,
start_simulation and stop_simulation; a KeyError for the undeclared
timestamp key for new_vehicle and delete_vehicle; and for api_call and
api_return success exactly when the transaction_id value coerces to
int, with the coercion's exception raised otherwise.  The first four
conjuncts characterize Message.from_json for every kind (quantifying
over every MsgSpec) and every payload shape; the remaining conjuncts pin
down from_object for each of the nine concrete kinds. -/
theorem C6_decode_failure_exactness :
    (∀ {α : Type} (spec : MsgSpec α),
      msg_from_json spec Payload.malformed =
        Except.error PyExc.jsonDecodeError) ∧
    (∀ {α : Type} (spec : MsgSpec α) (p : Parsed) (e : PyExc),
      getAttr p "type" = Except.error e →
      msg_from_json spec (Payload.wellFormed p) = Except.error e) ∧
    (∀ {α : Type} (spec : MsgSpec α) (p : Parsed) (tv : PVal),
      getAttr p "type" = Except.ok tv →
      tv ≠ PVal.atom (JVal.jstr spec.type) →
      msg_from_json spec (Payload.wellFormed p) =
        Except.ok (none, spec.initContent)) ∧
    (∀ {α : Type} (spec : MsgSpec α) (p : Parsed),
      getAttr p "type" = Except.ok (PVal.atom (JVal.jstr spec.type)) →
      (∀ e, getAttr p "content" = Except.error e →
        msg_from_json spec (Payload.wellFormed p) = Except.error e) ∧
      (∀ v, getAttr p "content" = Except.ok (PVal.atom v) →
        msg_from_json spec (Payload.wellFormed p) =
          Except.error (PyExc.attributeError "__dict__")) ∧
      (∀ c, getAttr p "content" = Except.ok (PVal.obj c) →
        (check_for_keys (specKeys spec) c = false →
          msg_from_json spec (Payload.wellFormed p) = Except.ok (none, c)) ∧
        (check_for_keys (specKeys spec) c = true →
          (∀ a, spec.fromObject c = Except.ok a →
            msg_from_json spec (Payload.wellFormed p) =
              Except.ok (some a, c)) ∧
          (∀ e, spec.fromObject c = Except.error e →
            msg_from_json spec (Payload.wellFormed p) =
              Except.error e)))) ∧
    (∀ c, check_for_keys (specKeys currentTimeSpec) c = true →
      ∃ f, currentTimeSpec.fromObject c = Except.ok f) ∧
    (∀ c, check_for_keys (specKeys positionUpdateSpec) c = true →
      ∃ f, positionUpdateSpec.fromObject c = Except.ok f) ∧
    (∀ c, check_for_keys (specKeys vehicleDataSpec) c = true →
      ∃ f, vehicleDataSpec.fromObject c = Except.ok f) ∧
    (∀ c : Content, startSimulationSpec.fromObject c = Except.ok ()) ∧
    (∀ c : Content, stopSimulationSpec.fromObject c = Except.ok ()) ∧
    (∀ c, check_for_keys (specKeys newVehicleSpec) c = true →
      dlookup c "timestamp" = none →
      newVehicleSpec.fromObject c =
        Except.error (PyExc.keyError "timestamp")) ∧
    (∀ c, check_for_keys (specKeys deleteVehicleSpec) c = true →
      dlookup c "timestamp" = none →
      deleteVehicleSpec.fromObject c =
        Except.error (PyExc.keyError "timestamp")) ∧
    (∀ c tv, check_for_keys (specKeys apiCallSpec) c = true →
      dlookup c "transaction_id" = some tv →
      (∀ n, pyInt tv = Except.ok n →
        ∃ d, apiCallSpec.fromObject c = Except.ok d) ∧
      (∀ e, pyInt tv = Except.error e →
        apiCallSpec.fromObject c = Except.error e)) ∧
    (∀ c tv, check_for_keys (specKeys apiReturnSpec) c = true →
      dlookup c "transaction_id" = some tv →
      (∀ n, pyInt tv = Except.ok n →
        ∃ d, apiReturnSpec.fromObject c = Except.ok d) ∧
      (∀ e, pyInt tv = Except.error e →
        apiReturnSpec.fromObject c = Except.error e)) := by
  refine ⟨?_, ?_, ?_, ?_, currentTime_fromObject_ok,
    positionUpdate_fromObject_ok, vehicleData_fromObject_ok,
    fun c => rfl, fun c => rfl, newVehicle_fromObject_keyError,
    fun c h hts => newVehicle_fromObject_keyError c h hts,
    apiCall_fromObject_cases, apiReturn_fromObject_cases⟩
  · intro α spec
    rfl
  · intro α spec p e h
    rw [msg_from_json_wellFormed, h]
    rfl
  · intro α spec p tv h hne
    rw [msg_from_json_wellFormed, h]
    simp only [except_bind_ok]
    rw [if_neg hne]
    rfl
  · intro α spec p h
    refine ⟨?_, ?_, ?_⟩
    · intro e hc
      rw [msg_from_json_wellFormed, h]
      simp only [except_bind_ok]
      rw [if_pos (by trivial), hc]
      trivial
    · intro v hc
      rw [msg_from_json_wellFormed, h]
      simp only [except_bind_ok]
      rw [if_pos (by trivial), hc]
      simp only [except_bind_ok, pvalDict]
      trivial
    · intro c hc
      constructor
      · intro hkeys
        rw [msg_from_json_wellFormed, h]
        simp only [except_bind_ok]
        rw [if_pos (by trivial), hc]
        simp only [except_bind_ok, pvalDict]
        rw [hkeys]
        simp only [Bool.false_eq_true, if_false]
        trivial
      · intro hkeys
        constructor
        · intro a ha
          rw [msg_from_json_wellFormed, h]
          simp only [except_bind_ok]
          rw [if_pos (by trivial), hc]
          simp only [except_bind_ok, pvalDict]
          rw [hkeys]
          simp only [if_pos]
          rw [ha]
          trivial
        · intro e he
          rw [msg_from_json_wellFormed, h]
          simp only [except_bind_ok]
          rw [if_pos (by trivial), hc]
          simp only [except_bind_ok, pvalDict]
          rw [hkeys]
          simp only [if_pos]
          rw [he]
          trivial

/-- C6, witness: the characterization exercised at concrete payloads —
an unparseable payload raises; a vehicle_data envelope offered to the
time decoder returns False keeping the original content; a vehicle_data
envelope missing the sender key returns False with the foreign content
adopted; a complete new_vehicle envelope raises KeyError for timestamp;
a complete vehicle_data envelope decodes successfully. -/
theorem C6_witness :
    msg_from_json vehicleDataSpec Payload.malformed =
      Except.error PyExc.jsonDecodeError ∧
    msg_from_json currentTimeSpec (Payload.wellFormed c6Parsed) =
      Except.ok (none, currentTimeSpec.initContent) ∧
    msg_from_json vehicleDataSpec (Payload.wellFormed c6Parsed) =
      Except.ok (none, c6Content) ∧
    msg_from_json newVehicleSpec (Payload.wellFormed c6NewVehicleParsed) =
      Except.error (PyExc.keyError "timestamp") ∧
    msg_from_json vehicleDataSpec (Payload.wellFormed c6VehicleDataParsed) =
      Except.ok (some vehicleDataDefault,
        vehicleData_content vehicleDataDefault) := by
  obtain ⟨hMal, -, hMismatch, hMatched, -, -, -, -, -, -, -, -, -⟩ :=
    C6_decode_failure_exactness
  refine ⟨hMal vehicleDataSpec, ?_, ?_, ?_, ?_⟩
  · exact hMismatch currentTimeSpec c6Parsed
      (PVal.atom (JVal.jstr "vehicle_data")) rfl (by decide)
  · exact ((hMatched vehicleDataSpec c6Parsed rfl).2.2 c6Content rfl).1 rfl
  · exact (((hMatched newVehicleSpec c6NewVehicleParsed rfl).2.2
      c6NewVehicleContent rfl).2 rfl).2 (PyExc.keyError "timestamp") rfl
  · exact (((hMatched vehicleDataSpec c6VehicleDataParsed rfl).2.2
      (vehicleData_content vehicleDataDefault) rfl).2 rfl).1
      vehicleDataDefault rfl

/-! ## Claims C7 and C8 -/

/-- C7.  Evaluation of the code at the failing input: the first two
envelopes from neighbor v1, carrying consecutive sequence numbers 7 and
8.  Messages reconstructed from JSON lack the seqn attribute, so the
second call raises AttributeError instead of updating the counter; and
even with the seqn attribute present (as on sender-side objects), the
first call stored the packet object itself in last_received_seqn, the
object-to-int comparison is always false, and consecutive_packets is
reset to 0 where the claim requires an increment to 1 (the received
sequence number 8 is exactly one greater than the last seen, 7). -/
theorem C7_counter_update_defect :
    ((update_packets_stats c7State "v1" (RxPacket.mk none) 1).bind
        (fun s => update_packets_stats s "v1" (RxPacket.mk none) 2) =
      Except.error (PyExc.attributeError "seqn")) ∧
    (Except.map (fun s => dlookup s.consecutive_packets "v1")
        ((update_packets_stats c7State "v1" (RxPacket.mk (some 7)) 1).bind
          (fun s => update_packets_stats s "v1" (RxPacket.mk (some 8)) 2)) =
      Except.ok (some 0)) :=
  ⟨rfl, rfl⟩

/-- C8, counterexample.  The claim includes a neighbor from which no
envelope has ever been received.  loss_monitor only compares against
last_received_time when the vehicle has an entry there, so the monitor
for the never-heard-from leader v0 does nothing even after arbitrarily
long silence (here at time 100): the state is unchanged and the entity
stays in Cooperative mode. -/
theorem C8_never_received_never_degrades :
    loss_monitor_check c8NoPacketState "v0" 100 = c8NoPacketState ∧
    (loss_monitor_check c8NoPacketState "v0" 100).using_cacc = true :=
  ⟨rfl, rfl⟩

/-- C8, amended.  For a non-leader entity in Cooperative mode with its
loss monitors armed, if a tracked neighbor has a recorded receipt older
than the 0.5-second silence threshold, the next monitor check for that
link switches the entity to the Degraded controller (ACC), stops all
per-link degrade monitoring, and issues the controller-switch API call;
a neighbor from which no envelope was ever received never triggers the
switch. -/
theorem C8_silence_triggers_degrade (st : CaccState) (vehicle : String)
    (now t : ℚ)
    (hrun : st.run = true) (hmon : st.run_loss_monitors = true)
    (hlead : st.is_leader = false) (hcoop : st.using_cacc = true)
    (hlast : dlookup st.last_received_time vehicle = some t)
    (hsil : now - t > 1/2) :
    loss_monitor_check st vehicle now = loss_detected st ∧
    (loss_monitor_check st vehicle now).using_cacc = false ∧
    (loss_monitor_check st vehicle now).run_loss_monitors = false ∧
    (loss_monitor_check st vehicle now).api_calls =
      st.api_calls ++ [(PAR_ACTIVE_CONTROLLER, toString ACC)] := by
  have h1 : loss_monitor_check st vehicle now = loss_detected st := by
    unfold loss_monitor_check
    rw [hrun, hmon]
    simp only [Bool.and_self, eq_self_iff_true, if_true, hlast,
      Option.isSome_some, Option.getD_some]
    rw [if_pos hsil]
  refine ⟨h1, ?_, ?_, ?_⟩ <;> rw [h1] <;> rfl

/-- C8, witness: at time 1, one second after the last receipt from v0,
the monitor check switches the entity to Degraded. -/
theorem C8_witness :
    dlookup c8WitnessState.last_received_time "v0" = some 0 ∧
    (1 : ℚ) - 0 > 1/2 ∧
    loss_monitor_check c8WitnessState "v0" 1 = loss_detected c8WitnessState :=
  ⟨rfl, by norm_num,
    (C8_silence_triggers_degrade c8WitnessState "v0" 1 0 rfl rfl rfl rfl rfl
      (by norm_num)).1⟩

/-! ### Branch case analyses for serve_api_call -/

theorem serve_branch1_cases (topicId : String) (call : APICallDecoded)
    (plexe : PlexeOracle) (r : ServeResponse) :
    (∃ rv, serve_branch1 topicId call plexe r =
        Except.ok { r with response := rv }) ∨
    serve_branch1 topicId call plexe r = Except.error ServeErr.traci := by
  unfold serve_branch1
  by_cases h : call.api_code = JVal.jstr CC_PAR_VEHICLE_DATA
  · rw [if_pos h]
    cases hd : plexe.get_vehicle_data topicId with
    | ok d =>
        left
        refine ⟨RespVal.vehicleDataJson topicId d, ?_⟩
        simp only [liftPlexe, except_bind_ok]
    | error e =>
        cases e
        right
        simp only [liftPlexe, except_bind_err]
  · rw [if_neg h]
    exact Or.inl ⟨r.response, rfl⟩

theorem serve_branch2_cases (topicId : String) (call : APICallDecoded)
    (paramsParse : Payload) (plexe : PlexeOracle) (r : ServeResponse)
    (hp : call.api_code = JVal.jstr PAR_LEADER_SPEED_AND_ACCELERATION →
      ∃ f, parseVehicleDataParams call.parameters paramsParse = Except.ok f) :
    (∃ rv, serve_branch2 topicId call paramsParse plexe r =
        Except.ok { r with response := rv }) ∨
    serve_branch2 topicId call paramsParse plexe r =
      Except.error ServeErr.traci := by
  unfold serve_branch2
  by_cases h : call.api_code = JVal.jstr PAR_LEADER_SPEED_AND_ACCELERATION
  · rw [if_pos h]
    obtain ⟨f, hf⟩ := hp h
    rw [hf]
    simp only [liftPy, except_bind_ok]
    cases hs : plexe.set_leader_vehicle_data topicId
        (mqtt_to_plexe_vehicle_data f) with
    | ok u =>
        left
        refine ⟨RespVal.trueLit, ?_⟩
        simp only [liftPlexe, except_bind_ok]
    | error e =>
        cases e
        right
        simp only [liftPlexe, except_bind_err]
  · rw [if_neg h]
    exact Or.inl ⟨r.response, rfl⟩

theorem serve_branch3_cases (topicId : String) (call : APICallDecoded)
    (paramsParse : Payload) (plexe : PlexeOracle) (r : ServeResponse)
    (hp : call.api_code = JVal.jstr PAR_PRECEDING_SPEED_AND_ACCELERATION →
      ∃ f, parseVehicleDataParams call.parameters paramsParse = Except.ok f) :
    (∃ rv, serve_branch3 topicId call paramsParse plexe r =
        Except.ok { r with response := rv }) ∨
    serve_branch3 topicId call paramsParse plexe r =
      Except.error ServeErr.traci := by
  unfold serve_branch3
  by_cases h : call.api_code = JVal.jstr PAR_PRECEDING_SPEED_AND_ACCELERATION
  · rw [if_pos h]
    obtain ⟨f, hf⟩ := hp h
    rw [hf]
    simp only [liftPy, except_bind_ok]
    cases hs : plexe.set_front_vehicle_data topicId
        (mqtt_to_plexe_vehicle_data f) with
    | ok u =>
        left
        refine ⟨RespVal.trueLit, ?_⟩
        simp only [liftPlexe, except_bind_ok]
    | error e =>
        cases e
        right
        simp only [liftPlexe, except_bind_err]
  · rw [if_neg h]
    exact Or.inl ⟨r.response, rfl⟩

theorem serve_branch4_cases (topicId : String) (call : APICallDecoded)
    (paramsParse : Payload) (plexe : PlexeOracle) (r : ServeResponse)
    (hp : call.api_code = JVal.jstr PAR_CC_DESIRED_SPEED →
      ∃ f, parseVehicleDataParams call.parameters paramsParse = Except.ok f) :
    (∃ rv, serve_branch4 topicId call paramsParse plexe r =
        Except.ok { r with response := rv }) ∨
    serve_branch4 topicId call paramsParse plexe r =
      Except.error ServeErr.traci := by
  unfold serve_branch4
  by_cases h : call.api_code = JVal.jstr PAR_CC_DESIRED_SPEED
  · rw [if_pos h]
    obtain ⟨f, hf⟩ := hp h
    rw [hf]
    simp only [liftPy, except_bind_ok]
    cases hs : plexe.set_cc_desired_speed topicId f.speed with
    | ok u =>
        left
        refine ⟨RespVal.trueLit, ?_⟩
        simp only [liftPlexe, except_bind_ok]
    | error e =>
        cases e
        right
        simp only [liftPlexe, except_bind_err]
  · rw [if_neg h]
    exact Or.inl ⟨r.response, rfl⟩

theorem serve_branch5_cases (topicId : String) (call : APICallDecoded)
    (plexe : PlexeOracle) (r : ServeResponse)
    (hp : call.api_code = JVal.jstr PAR_ACTIVE_CONTROLLER →
      ∃ n, pyInt call.parameters = Except.ok n) :
    (∃ rv, serve_branch5 topicId call plexe r =
        Except.ok { r with response := rv }) ∨
    serve_branch5 topicId call plexe r = Except.error ServeErr.traci := by
  unfold serve_branch5
  by_cases h : call.api_code = JVal.jstr PAR_ACTIVE_CONTROLLER
  · rw [if_pos h]
    obtain ⟨n, hn⟩ := hp h
    rw [hn]
    simp only [liftPy, except_bind_ok]
    cases hs : plexe.set_active_controller topicId n with
    | ok u =>
        left
        refine ⟨RespVal.trueLit, ?_⟩
        simp only [liftPlexe, except_bind_ok]
    | error e =>
        cases e
        right
        simp only [liftPlexe, except_bind_err]
  · rw [if_neg h]
    exact Or.inl ⟨r.response, rfl⟩

/-- Composition of two response-transforming steps, each of which either
only rewrites the response field or raises the caught error. -/
theorem bind_cases {r : ServeResponse} {b : Except ServeErr ServeResponse}
    {g : ServeResponse → Except ServeErr ServeResponse}
    (hb : (∃ rv, b = Except.ok { r with response := rv }) ∨
      b = Except.error ServeErr.traci)
    (hg : ∀ rmid, (∃ rv, g rmid = Except.ok { rmid with response := rv }) ∨
      g rmid = Except.error ServeErr.traci) :
    (∃ rv, (b >>= g) = Except.ok { r with response := rv }) ∨
    (b >>= g) = Except.error ServeErr.traci := by
  rcases hb with ⟨rv1, h1⟩ | h1
  · rcases hg { r with response := rv1 } with ⟨rv2, h2⟩ | h2
    · left
      refine ⟨rv2, ?_⟩
      rw [h1, except_bind_ok, h2]
    · right
      rw [h1, except_bind_ok, h2]
  · right
    rw [h1]
    rfl

/-- Under succeeding parameter conversions, the try block either
completes with a response differing from the initial one only in the
response field, or raises the caught FatalTraCIError. -/
theorem serve_body_cases (topicId : String) (call : APICallDecoded)
    (paramsParse : Payload) (plexe : PlexeOracle) (r0 : ServeResponse)
    (hp2 : call.api_code = JVal.jstr PAR_LEADER_SPEED_AND_ACCELERATION →
      ∃ f, parseVehicleDataParams call.parameters paramsParse = Except.ok f)
    (hp3 : call.api_code = JVal.jstr PAR_PRECEDING_SPEED_AND_ACCELERATION →
      ∃ f, parseVehicleDataParams call.parameters paramsParse = Except.ok f)
    (hp4 : call.api_code = JVal.jstr PAR_CC_DESIRED_SPEED →
      ∃ f, parseVehicleDataParams call.parameters paramsParse = Except.ok f)
    (hp5 : call.api_code = JVal.jstr PAR_ACTIVE_CONTROLLER →
      ∃ n, pyInt call.parameters = Except.ok n) :
    (∃ rv, serve_body topicId call paramsParse plexe r0 =
        Except.ok { r0 with response := rv }) ∨
    serve_body topicId call paramsParse plexe r0 =
      Except.error ServeErr.traci := by
  unfold serve_body
  refine bind_cases (serve_branch1_cases topicId call plexe r0) (fun r1 => ?_)
  refine bind_cases (serve_branch2_cases topicId call paramsParse plexe r1 hp2)
    (fun r2 => ?_)
  refine bind_cases (serve_branch3_cases topicId call paramsParse plexe r2 hp3)
    (fun r3 => ?_)
  refine bind_cases (serve_branch4_cases topicId call paramsParse plexe r3 hp4)
    (fun r4 => ?_)
  exact serve_branch5_cases topicId call plexe r4 hp5

/-! ## Claims C9 and C10 -/

/-- C9, counterexample.  The claim says that for every decodable call
envelope, serve either returns none (on the caught simulation error) or
returns a response envelope carrying the ids.  For a decodable
active-controller call whose parameters string is not numeric, the
external API raises nothing, yet serve raises ValueError out of
serve_api_call (int() is outside the FatalTraCIError handler): neither
branch of the claim happens. -/
theorem C9_malformed_controller_parameter_raises :
    serve_api_call "v0" c9BadCall Payload.malformed okOracle =
      Except.error PyExc.valueError := rfl

/-- C9, amended.  For a decodable call envelope published on its own
per-entity call topic, provided the parameter conversions of the
recognized api_code succeed (the nested vehicle-data parse does not
raise, and the active-controller parameter parses as an integer):
serve_api_call either returns a response envelope carrying the
originating entity id, api_code and transaction_id unchanged from the
call envelope, or returns none; and it returns none precisely when the
dispatched external API call raised the caught simulation error
(FatalTraCIError).  A failing parameter conversion instead raises an
uncaught exception out of serve (see the counterexample). -/
theorem C9_drop_on_traci_else_ids_preserved (topicId : String)
    (call : APICallDecoded) (paramsParse : Payload) (plexe : PlexeOracle)
    (hid : call.sumo_id = JVal.jstr topicId)
    (hp2 : call.api_code = JVal.jstr PAR_LEADER_SPEED_AND_ACCELERATION →
      ∃ f, parseVehicleDataParams call.parameters paramsParse = Except.ok f)
    (hp3 : call.api_code = JVal.jstr PAR_PRECEDING_SPEED_AND_ACCELERATION →
      ∃ f, parseVehicleDataParams call.parameters paramsParse = Except.ok f)
    (hp4 : call.api_code = JVal.jstr PAR_CC_DESIRED_SPEED →
      ∃ f, parseVehicleDataParams call.parameters paramsParse = Except.ok f)
    (hp5 : call.api_code = JVal.jstr PAR_ACTIVE_CONTROLLER →
      ∃ n, pyInt call.parameters = Except.ok n) :
    ((∃ r, serve_api_call topicId call paramsParse plexe =
        Except.ok (some r) ∧ r.sumo_id = topicId ∧
        JVal.jstr r.sumo_id = call.sumo_id ∧
        r.api_code = call.api_code ∧
        r.transaction_id = call.transaction_id) ∨
      serve_api_call topicId call paramsParse plexe = Except.ok none) ∧
    (serve_api_call topicId call paramsParse plexe = Except.ok none ↔
      serve_body topicId call paramsParse plexe (initResponse topicId call) =
        Except.error ServeErr.traci) := by
  constructor
  · rcases serve_body_cases topicId call paramsParse plexe
        (initResponse topicId call) hp2 hp3 hp4 hp5 with ⟨rv, hr⟩ | hr
    · left
      refine ⟨ServeResponse.mk topicId call.api_code call.transaction_id rv,
        ?_, rfl, ?_, rfl, rfl⟩
      · unfold serve_api_call
        rw [hr]
        rfl
      · exact hid.symm
    · right
      unfold serve_api_call
      rw [hr]
  · cases hsb : serve_body topicId call paramsParse plexe
        (initResponse topicId call) with
    | ok r =>
        unfold serve_api_call
        rw [hsb]
        constructor
        · intro hcon
          exact absurd hcon (by simp)
        · intro hcon
          exact absurd hcon (by simp)
    | error e =>
        cases e with
        | traci =>
            unfold serve_api_call
            rw [hsb]
            simp
        | py e2 =>
            unfold serve_api_call
            rw [hsb]
            constructor
            · intro hcon
              exact absurd hcon (by simp)
            · intro hcon
              exact absurd hcon (by simp)

/-- C9, witness: a well-formed active-controller call on its own topic
with a succeeding external API is answered with a response or dropped on
the caught error. -/
theorem C9_witness :
    c9WitnessCall.sumo_id = JVal.jstr "v0" ∧
    ((∃ r, serve_api_call "v0" c9WitnessCall Payload.malformed okOracle =
        Except.ok (some r) ∧ r.sumo_id = "v0" ∧
        JVal.jstr r.sumo_id = c9WitnessCall.sumo_id ∧
        r.api_code = c9WitnessCall.api_code ∧
        r.transaction_id = c9WitnessCall.transaction_id) ∨
      serve_api_call "v0" c9WitnessCall Payload.malformed okOracle =
        Except.ok none) :=
  ⟨rfl,
    (C9_drop_on_traci_else_ids_preserved "v0" c9WitnessCall Payload.malformed
      okOracle rfl
      (fun hx => absurd hx (by decide))
      (fun hx => absurd hx (by decide))
      (fun hx => absurd hx (by decide))
      (fun _ => ⟨2, rfl⟩)).1⟩

/-- C10.  For a well-formed api_call envelope published on its own
per-entity topic whose api_code is none of the five recognized operation
codes, serve_api_call returns a response envelope (it is not dropped, for
every behavior of the external API, which is never invoked): the
response carries the call's entity id, api_code and transaction_id, and
its content response field is null (None), so the blocked caller is
unblocked with a null result. -/
theorem C10_unknown_api_code_not_dropped (topicId : String)
    (call : APICallDecoded) (paramsParse : Payload) (plexe : PlexeOracle)
    (hid : call.sumo_id = JVal.jstr topicId)
    (h1 : call.api_code ≠ JVal.jstr CC_PAR_VEHICLE_DATA)
    (h2 : call.api_code ≠ JVal.jstr PAR_LEADER_SPEED_AND_ACCELERATION)
    (h3 : call.api_code ≠ JVal.jstr PAR_PRECEDING_SPEED_AND_ACCELERATION)
    (h4 : call.api_code ≠ JVal.jstr PAR_CC_DESIRED_SPEED)
    (h5 : call.api_code ≠ JVal.jstr PAR_ACTIVE_CONTROLLER) :
    serve_api_call topicId call paramsParse plexe =
      Except.ok (some (ServeResponse.mk topicId call.api_code
        call.transaction_id RespVal.null)) ∧
    JVal.jstr (ServeResponse.mk topicId call.api_code
        call.transaction_id RespVal.null).sumo_id = call.sumo_id := by
  have b1 : serve_branch1 topicId call plexe (initResponse topicId call) =
      Except.ok (initResponse topicId call) := by
    unfold serve_branch1
    rw [if_neg h1]
  have b2 : serve_branch2 topicId call paramsParse plexe
      (initResponse topicId call) = Except.ok (initResponse topicId call) := by
    unfold serve_branch2
    rw [if_neg h2]
  have b3 : serve_branch3 topicId call paramsParse plexe
      (initResponse topicId call) = Except.ok (initResponse topicId call) := by
    unfold serve_branch3
    rw [if_neg h3]
  have b4 : serve_branch4 topicId call paramsParse plexe
      (initResponse topicId call) = Except.ok (initResponse topicId call) := by
    unfold serve_branch4
    rw [if_neg h4]
  have b5 : serve_branch5 topicId call plexe (initResponse topicId call) =
      Except.ok (initResponse topicId call) := by
    unfold serve_branch5
    rw [if_neg h5]
  have hb : serve_body topicId call paramsParse plexe
      (initResponse topicId call) = Except.ok (initResponse topicId call) := by
    unfold serve_body
    rw [b1]
    simp only [except_bind_ok]
    rw [b2]
    simp only [except_bind_ok]
    rw [b3]
    simp only [except_bind_ok]
    rw [b4]
    simp only [except_bind_ok]
    exact b5
  constructor
  · unfold serve_api_call
    rw [hb]
    rfl
  · rw [hid]

/-- C10, witness: an unknown api_code on the caller's own topic is
answered with a null-response envelope carrying the call's ids. -/
theorem C10_witness :
    c10WitnessCall.sumo_id = JVal.jstr "v0" ∧
    serve_api_call "v0" c10WitnessCall Payload.malformed okOracle =
      Except.ok (some (ServeResponse.mk "v0" (JVal.jstr "unknown.api") 9
        RespVal.null)) :=
  ⟨rfl,
    (C10_unknown_api_code_not_dropped "v0" c10WitnessCall Payload.malformed
      okOracle rfl (by decide) (by decide) (by decide) (by decide)
      (by decide)).1⟩

/-- C4, witness: delivering the response for pending transaction 3
stores the result under the id. -/
theorem C4_witness :
    c4WitnessMsg.sumo_id = c4WitnessState.sumo_id ∧
    dlookup c4WitnessState.api_call_return_value c4WitnessMsg.transaction_id =
      none ∧
    dlookup (AppState.mk "v0" [(3, 1)]
        [(3, JVal.jstr "result")]).api_call_return_value
      c4WitnessMsg.transaction_id = some c4WitnessMsg.response :=
  ⟨rfl,
   ((C4_at_most_one_response c4WitnessState c4WitnessMsg rfl).2
      (AppState.mk "v0" [(3, 1)] [(3, JVal.jstr "result")])
      (by decide)).2.1,
   ((C4_at_most_one_response c4WitnessState c4WitnessMsg rfl).2
      (AppState.mk "v0" [(3, 1)] [(3, JVal.jstr "result")])
      (by decide)).2.2.1⟩
